import Mathlib

/-!
Shallow embedding of the pynws repository (src/geocoding.py and
src/weather.py): data model, geocoding lookup, NWS client operations and
the heat-index computation, with theorems about the claimed behaviors.

Python floats are modelled as rationals, Python ints as integers,
datetimes as rational timestamps (seconds), and ISO timestamp strings are
kept as strings. Fallible Python code (exceptions) is modelled with
Except over an explicit error type. The runtime square root
(math.sqrt on floats) is passed in as an explicit function parameter,
so theorems about branch structure hold for any square-root
implementation. Network I/O is modelled by passing the parsed HTTP
response(s) in as arguments, and each operation additionally returns the
list of HTTP requests it issued.
-/

/-- Errors raised by the embedded code.  `providerError` is the
ValueError carrying the response body's `errors` field; `transportError`
is the re-raised underlying HTTP exception; `malformedResponse` is the
ValueError for a missing `result` key; `addressNotFound` is the
ValueError whose message carries the four submitted address components;
`typeError`, `indexError` and `assertionError` model the corresponding
Python runtime exceptions. -/
inductive PyErr where
  | providerError (errs : List String)
  | transportError
  | malformedResponse
  | addressNotFound (street city state zip : String)
  | typeError
  | indexError
  | assertionError
deriving DecidableEq

/-- A dynamically typed Python value used where the code mixes types:
`max_age` is annotated `int` (default `0`) but is compared against a
`datetime.timedelta`. -/
inductive PyVal where
  | int (n : ℤ)
  | timedelta (q : ℚ)
deriving DecidableEq

/-- A parsed HTTP response: whether `raise_for_status()` passes (2xx
status) and the JSON body, already decoded. -/
structure HttpResp (α : Type) where
  ok : Bool
  body : α
deriving DecidableEq

/-- Round a rational to the nearest integer, ties to even — the rounding
Python's built-in `round` uses. -/
def roundHalfEven (q : ℚ) : ℤ :=
  let n := ⌊q⌋
  let r := q - (n : ℚ)
  if r < 1 / 2 then n
  else if 1 / 2 < r then n + 1
  else if n % 2 = 0 then n else n + 1

/-- Python's `round(x, 4)`: round to four decimal places. -/
def pyRound4 (q : ℚ) : ℚ := (roundHalfEven (q * 10000) : ℚ) / 10000

/-- Python list indexing `l[i]`: IndexError when out of range. -/
def pyListGet {α : Type} (l : List α) (i : ℕ) : Except PyErr α :=
  match l.get? i with
  | none => .error .indexError
  | some x => .ok x

/-! ## geocoding.py -/

/-- The namedtuple `Coordinates = namedtuple('Coordinates', ['lat', 'long'])`. -/
structure Coordinates where
  lat : ℚ
  long : ℚ
deriving DecidableEq

/-- One entry of `result.addressMatches[..].coordinates`. -/
structure GeoXY where
  x : ℚ
  y : ℚ
deriving DecidableEq

/-- One entry of `result.addressMatches`. -/
structure GeoMatch where
  coordinates : GeoXY
deriving DecidableEq

/-- The `result` object of the geocoder response.  `addressMatches` is
`none` when the key is absent (`dict.get` returns `None`, and `len(None)`
raises TypeError). -/
structure GeoResult where
  addressMatches : Option (List GeoMatch)
deriving DecidableEq

/-- The parsed geocoder response body: the `errors` field (empty list
when absent or falsy) and the `result` object (`none` when absent or
falsy). -/
structure GeoBody where
  errors : List String
  result : Option GeoResult
deriving DecidableEq

/-- Embedding of `get_coords_from_address` (src/geocoding.py, lines
11-45), given the four address arguments and the parsed HTTP response of
the geocoder GET. -/
def get_coords_from_address (address city state zip : String)
    (r : HttpResp GeoBody) : Except PyErr Coordinates :=
  if r.ok then
    match r.body.result with
    | none => .error .malformedResponse
    | some result =>
      match result.addressMatches with
      | none => .error .typeError
      | some [] => .error (.addressNotFound address city state zip)
      | some (m :: _) => .ok ⟨pyRound4 m.coordinates.y, pyRound4 m.coordinates.x⟩
  else if r.body.errors ≠ [] then .error (.providerError r.body.errors)
  else .error .transportError

/-! ## weather.py: data model -/

/-- The `properties` object of the points (location) response. -/
structure PointsProperties where
  gridX : ℤ
  gridY : ℤ
  cwa : String
  forecast : String
  forecastHourly : String
  forecastGridData : String
  timeZone : String
deriving DecidableEq

/-- The parsed points response body: its `errors` field (empty when
absent) and its `properties` object. -/
structure PointsBody where
  errors : List String
  properties : PointsProperties
deriving DecidableEq

/-- The class `LocationData` (src/weather.py, lines 13-31).  `created`
is the `datetime.datetime.now()` timestamp taken at construction;
`max_age` keeps its dynamic Python type. -/
structure LocationData where
  x : ℤ
  y : ℤ
  cwa : String
  weekly_forecast_url : String
  hourly_forecast_url : String
  forecast_grid_data_url : String
  timezone : String
  max_age : PyVal
  created : ℚ
deriving DecidableEq

/-- Embedding of `LocationData.__init__`, with the construction time
passed in for `datetime.datetime.now()`. -/
def LocationData.ofJson (points_json : PointsBody) (max_age : PyVal)
    (now : ℚ) : LocationData where
  x := points_json.properties.gridX
  y := points_json.properties.gridY
  cwa := points_json.properties.cwa
  weekly_forecast_url := points_json.properties.forecast
  hourly_forecast_url := points_json.properties.forecastHourly
  forecast_grid_data_url := points_json.properties.forecastGridData
  timezone := points_json.properties.timeZone
  max_age := max_age
  created := now

/-- Embedding of `LocationData.is_expired`: the Python expression
`datetime.datetime.now() - self.created > self.max_age` compares a
timedelta with `max_age`; when `max_age` is an `int` the comparison
raises TypeError. -/
def LocationData.is_expired (l : LocationData) (now : ℚ) :
    Except PyErr Bool :=
  match l.max_age with
  | .int _ => .error .typeError
  | .timedelta m => .ok (decide (now - l.created > m))

/-- One entry of `properties.periods` in the forecast response, with the
fields `Forecast.__init__` reads (nested `value`/`unitCode` fields are
flattened into one structure). -/
structure PeriodJson where
  name : String
  startTime : String
  endTime : String
  isDaytime : Bool
  temperature : ℤ
  temperatureUnit : String
  probabilityOfPrecipitationValue : ℤ
  relativeHumidityValue : ℤ
  dewpointValue : ℚ
  dewpointUnitCode : String
  windSpeed : String
  windDirection : String
  shortForecast : String
  detailedForecast : String
deriving DecidableEq

/-- The class `Forecast` (src/weather.py, lines 33-55).  ISO timestamp
strings are kept as strings. -/
structure Forecast where
  name : String
  start_time : String
  end_time : String
  is_daytime : Bool
  temperature : ℤ
  temperature_unit : String
  precipitation_prob : ℤ
  relative_humidity : ℤ
  dew_point : ℚ
  dew_point_unit : String
  wind_speed : String
  wind_speed_direction : String
  short_forecast : String
  detailed_forecast : String
deriving DecidableEq

/-- Embedding of `Forecast.__init__`. -/
def Forecast.ofJson (forecast_json : PeriodJson) : Forecast where
  name := forecast_json.name
  start_time := forecast_json.startTime
  end_time := forecast_json.endTime
  is_daytime := forecast_json.isDaytime
  temperature := forecast_json.temperature
  temperature_unit := forecast_json.temperatureUnit
  precipitation_prob := forecast_json.probabilityOfPrecipitationValue
  relative_humidity := forecast_json.relativeHumidityValue
  dew_point := forecast_json.dewpointValue
  dew_point_unit := forecast_json.dewpointUnitCode
  wind_speed := forecast_json.windSpeed
  wind_speed_direction := forecast_json.windDirection
  short_forecast := forecast_json.shortForecast
  detailed_forecast := forecast_json.detailedForecast

/-- The base ("simple") heat-index estimate used below 80 degrees F. -/
def simple_heat_index (t rh : ℚ) : ℚ :=
  0.5 * (t + 61.0 + ((t - 68.0) * 1.2) + (rh * 0.094))

/-- The Rothfusz regression used at or above 80 degrees F. -/
def rothfusz_heat_index (t rh : ℚ) : ℚ :=
  -42.379 + 2.04901523 * t + 10.14333127 * rh - 0.22475541 * t * rh
    - 0.00683783 * t * t - 0.05481717 * rh * rh + 0.00122874 * t * t * rh
    + 0.00085282 * t * rh * rh - 0.00000199 * t * t * rh * rh

/-- Embedding of `Forecast.heat_index` (src/weather.py, lines 57-79).
The runtime `math.sqrt` is passed in as `sqrt`. -/
def Forecast.heat_index (f : Forecast) (sqrt : ℚ → ℚ) : ℚ :=
  let t : ℚ := (f.temperature : ℚ)
  let rh : ℚ := (f.relative_humidity : ℚ)
  let hi : ℚ := 0.5 * (t + 61.0 + ((t - 68.0) * 1.2) + (rh * 0.094))
  if hi ≥ 80 then
    let hi2 : ℚ :=
      -42.379 + 2.04901523 * t + 10.14333127 * rh - 0.22475541 * t * rh
        - 0.00683783 * t * t - 0.05481717 * rh * rh + 0.00122874 * t * t * rh
        + 0.00085282 * t * rh * rh - 0.00000199 * t * t * rh * rh
    if 80 ≤ t ∧ t ≤ 112 ∧ rh < 13 then
      hi2 - ((13 - rh) / 4) * sqrt ((17 - |t - 95|) / 17)
    else if rh > 85 ∧ 80 ≤ t ∧ t ≤ 87 then
      hi2 + ((rh - 85) / 10) * ((87 - t) / 5)
    else hi2
  else hi

/-- The parsed weekly-forecast response body: its `errors` field and
`properties.periods`. -/
structure ForecastBody where
  errors : List String
  periods : List PeriodJson
deriving DecidableEq

/-- The class `WeeklyForecast` (src/weather.py, lines 84-101). -/
structure WeeklyForecast where
  forecasts : List Forecast
  max_age : PyVal
  created : ℚ
deriving DecidableEq

/-- Embedding of `WeeklyForecast.__init__`, with the construction time
passed in for `datetime.datetime.now()`. -/
def WeeklyForecast.ofJson (forecast_json : ForecastBody) (max_age : PyVal)
    (now : ℚ) : WeeklyForecast where
  forecasts := forecast_json.periods.map Forecast.ofJson
  max_age := max_age
  created := now

/-- Embedding of `WeeklyForecast.is_expired`: same comparison of a
timedelta against `max_age` as `LocationData.is_expired`. -/
def WeeklyForecast.is_expired (w : WeeklyForecast) (now : ℚ) :
    Except PyErr Bool :=
  match w.max_age with
  | .int _ => .error .typeError
  | .timedelta m => .ok (decide (now - w.created > m))

/-- Embedding of `WeeklyForecast.today`: `self.forecasts[0]`. -/
def WeeklyForecast.today (w : WeeklyForecast) : Except PyErr Forecast :=
  pyListGet w.forecasts 0

/-! ## weather.py: NWSClient -/

/-- One outbound HTTP GET: its URL and its User-Agent header value. -/
structure Request where
  url : String
  userAgent : String
deriving DecidableEq

/-- Decimal formatting of a rational with four digits after the point,
as Python string formatting with a fixed precision of 4 produces. -/
def format4 (q : ℚ) : String :=
  let n := roundHalfEven (q * 10000)
  let a := n.natAbs
  let fracDigits := toString (a % 10000)
  let pad := String.mk (List.replicate (4 - fracDigits.length) (Char.ofNat 48))
  (if n < 0 then "-" else "") ++ toString (a / 10000) ++ "." ++ pad ++ fracDigits

/-- The points endpoint URL template `POINTS_API_URL`, applied to a
coordinate pair with 4-decimal formatting. -/
def points_api_url (lat long : ℚ) : String :=
  "https://api.weather.gov/points/" ++ format4 lat ++ "," ++ format4 long

/-- The class `NWSClient` (src/weather.py, lines 103-155). -/
structure NWSClient where
  user_agent : String
deriving DecidableEq

/-- Embedding of `NWSClient.__init__`: asserts that the User-Agent
string is neither `None` nor empty before storing it. -/
def NWSClient.init (user_agent : Option String) : Except PyErr NWSClient :=
  match user_agent with
  | none => .error .assertionError
  | some ua => if ua = "" then .error .assertionError else .ok ⟨ua⟩

/-- Embedding of `NWSClient.get_location_data` (src/weather.py, lines
109-129), given the parsed response of the points GET.  Also returns
the list of HTTP requests issued. -/
def NWSClient.get_location_data (c : NWSClient) (coords : Coordinates)
    (resp : HttpResp PointsBody) (now : ℚ) :
    Except PyErr LocationData × List Request :=
  let url_string := points_api_url coords.lat coords.long
  let req : Request := ⟨url_string, c.user_agent⟩
  if resp.ok then
    (.ok (LocationData.ofJson resp.body (.int 0) now), [req])
  else if resp.body.errors ≠ [] then
    (.error (.providerError resp.body.errors), [req])
  else
    (.error .transportError, [req])

/-- The two upstream responses `get_weekly_forecast` may consume: the
points response and the weekly-forecast response. -/
structure Env where
  pointsResp : HttpResp PointsBody
  forecastResp : HttpResp ForecastBody
deriving DecidableEq

/-- Embedding of `NWSClient.get_weekly_forecast` (src/weather.py, lines
131-155).  The cached-result check is the early return; otherwise the
location is resolved and the weekly forecast fetched, each consuming
its response from `env`.  Also returns the list of HTTP requests
issued. -/
def NWSClient.get_weekly_forecast (c : NWSClient) (coords : Coordinates)
    (env : Env) (now : ℚ) (cached_result : Option WeeklyForecast) :
    Except PyErr WeeklyForecast × List Request :=
  let fetch : Except PyErr WeeklyForecast × List Request :=
    match c.get_location_data coords env.pointsResp now with
    | (.error e, reqs) => (.error e, reqs)
    | (.ok loc_data, reqs) =>
      let req2 : Request := ⟨loc_data.weekly_forecast_url, c.user_agent⟩
      if env.forecastResp.ok then
        (.ok (WeeklyForecast.ofJson env.forecastResp.body (.int 0) now),
          reqs ++ [req2])
      else if env.forecastResp.body.errors ≠ [] then
        (.error (.providerError env.forecastResp.body.errors), reqs ++ [req2])
      else
        (.error .transportError, reqs ++ [req2])
  match cached_result with
  | none => fetch
  | some cached =>
    match cached.is_expired now with
    | .error e => (.error e, [])
    | .ok true => fetch
    | .ok false => (.ok cached, [])

/-! ## Concrete fixtures used by witnesses and counterexamples -/

/-- A forecast record with the given temperature and relative humidity
and neutral values in every other field. -/
def exampleForecast (t rh : ℤ) : Forecast where
  name := ""
  start_time := ""
  end_time := ""
  is_daytime := true
  temperature := t
  temperature_unit := "F"
  precipitation_prob := 0
  relative_humidity := rh
  dew_point := 0
  dew_point_unit := ""
  wind_speed := ""
  wind_speed_direction := ""
  short_forecast := ""
  detailed_forecast := ""

/-! ## Claims -/

/-- C1: heat_index computes the base estimate; exactly when it is at
least 80 it recomputes by the Rothfusz regression and then applies the
low-humidity correction exactly when 80 <= T <= 112 and RH < 13, else
the high-humidity correction exactly when RH > 85 and 80 <= T <= 87,
the two conditions being mutually exclusive; otherwise the Rothfusz
value (or the base estimate) is returned uncorrected. -/
theorem heat_index_branch_structure (s : ℚ → ℚ) (f : Forecast) :
    (simple_heat_index (f.temperature : ℚ) (f.relative_humidity : ℚ) < 80 →
      f.heat_index s = simple_heat_index (f.temperature : ℚ) (f.relative_humidity : ℚ)) ∧
    (80 ≤ simple_heat_index (f.temperature : ℚ) (f.relative_humidity : ℚ) →
      ((80 ≤ (f.temperature : ℚ) ∧ (f.temperature : ℚ) ≤ 112 ∧ (f.relative_humidity : ℚ) < 13 →
        f.heat_index s =
          rothfusz_heat_index (f.temperature : ℚ) (f.relative_humidity : ℚ) -
            ((13 - (f.relative_humidity : ℚ)) / 4) *
              s ((17 - |(f.temperature : ℚ) - 95|) / 17)) ∧
      ((f.relative_humidity : ℚ) > 85 ∧ 80 ≤ (f.temperature : ℚ) ∧ (f.temperature : ℚ) ≤ 87 →
        f.heat_index s =
          rothfusz_heat_index (f.temperature : ℚ) (f.relative_humidity : ℚ) +
            (((f.relative_humidity : ℚ) - 85) / 10) * ((87 - (f.temperature : ℚ)) / 5)) ∧
      (¬(80 ≤ (f.temperature : ℚ) ∧ (f.temperature : ℚ) ≤ 112 ∧ (f.relative_humidity : ℚ) < 13) →
        ¬((f.relative_humidity : ℚ) > 85 ∧ 80 ≤ (f.temperature : ℚ) ∧ (f.temperature : ℚ) ≤ 87) →
        f.heat_index s = rothfusz_heat_index (f.temperature : ℚ) (f.relative_humidity : ℚ)))) ∧
    ¬((80 ≤ (f.temperature : ℚ) ∧ (f.temperature : ℚ) ≤ 112 ∧ (f.relative_humidity : ℚ) < 13) ∧
      ((f.relative_humidity : ℚ) > 85 ∧ 80 ≤ (f.temperature : ℚ) ∧ (f.temperature : ℚ) ≤ 87)) := by
  set t := (f.temperature : ℚ) with ht
  set rh := (f.relative_humidity : ℚ) with hrh
  have hdef : f.heat_index s =
      (if simple_heat_index t rh ≥ 80 then
        if 80 ≤ t ∧ t ≤ 112 ∧ rh < 13 then
          rothfusz_heat_index t rh - ((13 - rh) / 4) * s ((17 - |t - 95|) / 17)
        else if rh > 85 ∧ 80 ≤ t ∧ t ≤ 87 then
          rothfusz_heat_index t rh + ((rh - 85) / 10) * ((87 - t) / 5)
        else rothfusz_heat_index t rh
      else simple_heat_index t rh) := rfl
  refine ⟨?_, ?_, ?_⟩
  · intro h
    rw [hdef, if_neg (not_le.mpr h)]
  · intro h80
    refine ⟨?_, ?_, ?_⟩
    · intro hc
      rw [hdef, if_pos h80, if_pos hc]
    · intro hc2
      have hnc1 : ¬(80 ≤ t ∧ t ≤ 112 ∧ rh < 13) := by
        rintro ⟨-, -, h3⟩
        rcases hc2 with ⟨h4, -, -⟩
        linarith
      rw [hdef, if_pos h80, if_neg hnc1, if_pos hc2]
    · intro hnc1 hnc2
      rw [hdef, if_pos h80, if_neg hnc1, if_neg hnc2]
  · rintro ⟨⟨-, -, h3⟩, ⟨h4, -, -⟩⟩
    linarith

/-- C2 counterexample: at T=70 and RH=50 the heat index is 69.05, not
the value 70.2 the claim states. -/
theorem heat_index_70_50_ne_spec_value :
    (exampleForecast 70 50).heat_index (fun q => q) ≠ 70.2 := by
  norm_num [Forecast.heat_index, exampleForecast]

/-- C2 (amended): at T=70 and RH=50 only the base-formula branch is
taken (the base estimate is below 80) and the result is exactly
0.5*(70+61+(70-68)*1.2+50*0.094) = 69.05, for any square root. -/
theorem heat_index_70_50_base_branch (s : ℚ → ℚ) :
    simple_heat_index 70 50 < 80 ∧
    (exampleForecast 70 50).heat_index s = simple_heat_index 70 50 ∧
    simple_heat_index 70 50 = 0.5 * (70 + 61 + (70 - 68) * 1.2 + 50 * 0.094) ∧
    simple_heat_index 70 50 = 69.05 := by
  refine ⟨by norm_num [simple_heat_index], ?_,
    by norm_num [simple_heat_index], by norm_num [simple_heat_index]⟩
  norm_num [Forecast.heat_index, simple_heat_index, exampleForecast]

/-- Rounding an integer (as a rational) changes nothing. -/
theorem roundHalfEven_intCast (n : ℤ) : roundHalfEven (n : ℚ) = n := by
  unfold roundHalfEven
  norm_num

/-- A rational that already has at most four decimal places is its own
4-decimal rounding. -/
theorem pyRound4_eq_self (q : ℚ) (n : ℤ) (h : q * 10000 = (n : ℚ)) :
    pyRound4 q = q := by
  unfold pyRound4
  rw [h, roundHalfEven_intCast, ← h]
  field_simp

/-- C3: a successful geocoder response with a non-empty addressMatches
list yields Coordinates built from the first match only, latitude from
its y field and longitude from its x field, each rounded to 4 decimal
places. -/
theorem coords_from_first_match (address city state zip : String)
    (r : HttpResp GeoBody) (res : GeoResult) (m : GeoMatch)
    (rest : List GeoMatch) (hok : r.ok = true)
    (hres : r.body.result = some res)
    (hm : res.addressMatches = some (m :: rest)) :
    get_coords_from_address address city state zip r =
      .ok ⟨pyRound4 m.coordinates.y, pyRound4 m.coordinates.x⟩ := by
  simp [get_coords_from_address, hok, hres, hm]

/-- C3 witness: a fixture whose first match has x = -77.0365 and
y = 38.8977 yields Coordinates(38.8977, -77.0365). -/
theorem coords_from_first_match_instance :
    get_coords_from_address "1600 Pennsylvania Avenue" "Washington" "DC" ""
        ⟨true, ⟨[], some ⟨some [⟨⟨-77.0365, 38.8977⟩⟩]⟩⟩⟩ =
      .ok ⟨38.8977, -77.0365⟩ := by
  have h := coords_from_first_match "1600 Pennsylvania Avenue" "Washington"
    "DC" "" ⟨true, ⟨[], some ⟨some [⟨⟨-77.0365, 38.8977⟩⟩]⟩⟩⟩
    ⟨some [⟨⟨-77.0365, 38.8977⟩⟩]⟩ ⟨⟨-77.0365, 38.8977⟩⟩ [] rfl rfl rfl
  have h1 : pyRound4 38.8977 = 38.8977 := pyRound4_eq_self _ 388977 (by norm_num)
  have h2 : pyRound4 (-77.0365) = -77.0365 :=
    pyRound4_eq_self _ (-770365) (by norm_num)
  rw [h]
  simp [h1, h2]

/-- C4: a successful geocoder response with a result key but an empty
addressMatches list yields the address-not-found error carrying the
submitted street, city, state and zip, not a crash on index access. -/
theorem empty_matches_address_not_found (address city state zip : String)
    (r : HttpResp GeoBody) (res : GeoResult) (hok : r.ok = true)
    (hres : r.body.result = some res) (hm : res.addressMatches = some []) :
    get_coords_from_address address city state zip r =
      .error (.addressNotFound address city state zip) := by
  simp [get_coords_from_address, hok, hres, hm]

/-- C4 witness: an empty addressMatches list raises the
address-not-found error with the four submitted components. -/
theorem empty_matches_address_not_found_instance :
    get_coords_from_address "1600 Pennsylvania Avenue" "Washington" "DC"
        "20500" ⟨true, ⟨[], some ⟨some []⟩⟩⟩ =
      .error (.addressNotFound "1600 Pennsylvania Avenue" "Washington" "DC"
        "20500") :=
  empty_matches_address_not_found "1600 Pennsylvania Avenue" "Washington"
    "DC" "20500" ⟨true, ⟨[], some ⟨some []⟩⟩⟩ ⟨some []⟩ rfl rfl rfl

/-- The location-resolution call issues exactly one request, to the
points URL, carrying the client's User-Agent. -/
theorem get_location_data_requests (c : NWSClient) (coords : Coordinates)
    (resp : HttpResp PointsBody) (now : ℚ) :
    (c.get_location_data coords resp now).2 =
      [⟨points_api_url coords.lat coords.long, c.user_agent⟩] := by
  simp only [NWSClient.get_location_data]
  split_ifs <;> rfl

/-- C5: at each of the three HTTP request sites, a non-2xx response
with a non-empty errors field in its JSON body raises the provider
error carrying that field verbatim, and otherwise the underlying
transport error is re-raised. -/
theorem http_error_handling_pattern :
    (∀ (address city state zip : String) (r : HttpResp GeoBody),
      r.ok = false →
        (r.body.errors ≠ [] →
          get_coords_from_address address city state zip r =
            .error (.providerError r.body.errors)) ∧
        (r.body.errors = [] →
          get_coords_from_address address city state zip r =
            .error .transportError)) ∧
    (∀ (c : NWSClient) (coords : Coordinates) (resp : HttpResp PointsBody)
      (now : ℚ), resp.ok = false →
        (resp.body.errors ≠ [] →
          (c.get_location_data coords resp now).1 =
            .error (.providerError resp.body.errors)) ∧
        (resp.body.errors = [] →
          (c.get_location_data coords resp now).1 = .error .transportError)) ∧
    (∀ (c : NWSClient) (coords : Coordinates) (env : Env) (now : ℚ),
      env.pointsResp.ok = true → env.forecastResp.ok = false →
        (env.forecastResp.body.errors ≠ [] →
          (c.get_weekly_forecast coords env now none).1 =
            .error (.providerError env.forecastResp.body.errors)) ∧
        (env.forecastResp.body.errors = [] →
          (c.get_weekly_forecast coords env now none).1 =
            .error .transportError)) := by
  refine ⟨?_, ?_, ?_⟩
  · intro address city state zip r hok
    constructor <;> intro he <;> simp [get_coords_from_address, hok, he]
  · intro c coords resp now hok
    constructor <;> intro he <;> simp [NWSClient.get_location_data, hok, he]
  · intro c coords env now hpoints hfc
    constructor <;> intro he <;>
      simp [NWSClient.get_weekly_forecast, NWSClient.get_location_data,
        hpoints, hfc, he]

/-- C6: a supplied cached weekly forecast whose own expiry check
returns false is returned unchanged, with no request issued. -/
theorem cached_not_expired_short_circuits (c : NWSClient)
    (coords : Coordinates) (env : Env) (now : ℚ) (cached : WeeklyForecast)
    (h : cached.is_expired now = .ok false) :
    c.get_weekly_forecast coords env now (some cached) = (.ok cached, []) := by
  simp [NWSClient.get_weekly_forecast, h]

/-- A network environment with successful empty-bodied responses. -/
def envFixture : Env :=
  ⟨⟨true, ⟨[], ⟨31, 80, "ILN", "", "", "", "America/New_York"⟩⟩⟩,
    ⟨true, ⟨[], []⟩⟩⟩

/-- A cached weekly forecast with a timedelta max_age of 3600, created
at time 0. -/
def cachedFixture : WeeklyForecast := ⟨[], .timedelta 3600, 0⟩

/-- C6 witness: at time 60 the cached fixture is not expired, and the
fetch returns it with no requests issued. -/
theorem cached_not_expired_short_circuits_instance :
    NWSClient.get_weekly_forecast ⟨"test-agent"⟩ ⟨38.8977, -77.0365⟩
      envFixture 60 (some cachedFixture) = (.ok cachedFixture, []) := by
  apply cached_not_expired_short_circuits
  simp [WeeklyForecast.is_expired, cachedFixture, decide_eq_false_iff_not]
  norm_num

/-- C7: with the default integer max_age of 0, is_expired raises
TypeError (timedelta compared against int) instead of returning true
as the claim states, on both WeeklyForecast and LocationData. -/
theorem is_expired_int_max_age_type_error :
    WeeklyForecast.is_expired ⟨[], .int 0, 0⟩ 5 = .error .typeError ∧
    LocationData.is_expired ⟨31, 80, "ILN", "", "", "", "", .int 0, 0⟩ 5 =
      .error .typeError :=
  ⟨rfl, rfl⟩

/-- C8: a weekly forecast produced on the network path is freshly
constructed with creation time equal to the current time and max_age
equal to the default integer 0. -/
theorem fresh_weekly_forecast_defaults (c : NWSClient) (coords : Coordinates)
    (env : Env) (now : ℚ) (cached : Option WeeklyForecast)
    (hp : env.pointsResp.ok = true) (hf : env.forecastResp.ok = true)
    (hc : cached = none ∨
      ∃ w, cached = some w ∧ w.is_expired now = .ok true) :
    (c.get_weekly_forecast coords env now cached).1 =
      .ok ⟨env.forecastResp.body.periods.map Forecast.ofJson, .int 0, now⟩ := by
  rcases hc with hnone | ⟨w, hw, hexp⟩
  · subst hnone
    simp [NWSClient.get_weekly_forecast, NWSClient.get_location_data, hp, hf,
      WeeklyForecast.ofJson]
  · subst hw
    simp [NWSClient.get_weekly_forecast, NWSClient.get_location_data, hp, hf,
      hexp, WeeklyForecast.ofJson]

/-- C8 witness: a fresh fetch at time 60 returns a weekly forecast
created at 60 with integer max_age 0. -/
theorem fresh_weekly_forecast_defaults_instance :
    (NWSClient.get_weekly_forecast ⟨"test-agent"⟩ ⟨38.8977, -77.0365⟩
        envFixture 60 none).1 = .ok ⟨[], .int 0, 60⟩ := by
  have h := fresh_weekly_forecast_defaults ⟨"test-agent"⟩ ⟨38.8977, -77.0365⟩
    envFixture 60 none rfl rfl (Or.inl rfl)
  simpa [envFixture] using h

/-- C9: constructing a client from a missing or empty User-Agent string
fails with the assertion error before any request can be issued; a
client built from a non-empty string stores it, and every request
issued by get_location_data or get_weekly_forecast carries the client's
User-Agent header. -/
theorem user_agent_required_and_attached :
    NWSClient.init none = .error .assertionError ∧
    NWSClient.init (some "") = .error .assertionError ∧
    (∀ (ua : String) (c : NWSClient),
      NWSClient.init (some ua) = .ok c → ua ≠ "" ∧ c.user_agent = ua) ∧
    (∀ (c : NWSClient) (coords : Coordinates) (resp : HttpResp PointsBody)
      (now : ℚ) (req : Request),
      req ∈ (c.get_location_data coords resp now).2 →
      req.userAgent = c.user_agent) ∧
    (∀ (c : NWSClient) (coords : Coordinates) (env : Env) (now : ℚ)
      (cached : Option WeeklyForecast) (req : Request),
      req ∈ (c.get_weekly_forecast coords env now cached).2 →
      req.userAgent = c.user_agent) := by
  refine ⟨rfl, rfl, ?_, ?_, ?_⟩
  · intro ua c h
    by_cases hua : ua = ""
    · subst hua
      simp [NWSClient.init] at h
    · have hinit : NWSClient.init (some ua) = .ok ⟨ua⟩ := by
        simp [NWSClient.init, hua]
      rw [hinit] at h
      injection h with h2
      exact ⟨hua, by rw [← h2]⟩
  · intro c coords resp now req hreq
    rw [get_location_data_requests] at hreq
    simp at hreq
    rw [hreq]
  · intro c coords env now cached req hreq
    simp only [NWSClient.get_weekly_forecast] at hreq
    rcases cached with _ | w
    · rcases hgl : c.get_location_data coords env.pointsResp now with ⟨res, reqs⟩
      have hreqs : reqs = [⟨points_api_url coords.lat coords.long, c.user_agent⟩] := by
        have := get_location_data_requests c coords env.pointsResp now
        rw [hgl] at this
        exact this
      subst hreqs
      simp only [hgl] at hreq
      rcases res with e | loc
      · simp at hreq
        rw [hreq]
      · split_ifs at hreq <;> simp at hreq <;> rcases hreq with rfl | rfl <;> rfl
    · rcases hexp : w.is_expired now with e | b
      · simp [hexp] at hreq
      · rcases b with _ | _
        · simp [hexp] at hreq
        · simp only [hexp] at hreq
          rcases hgl : c.get_location_data coords env.pointsResp now with ⟨res, reqs⟩
          have hreqs : reqs = [⟨points_api_url coords.lat coords.long, c.user_agent⟩] := by
            have := get_location_data_requests c coords env.pointsResp now
            rw [hgl] at this
            exact this
          subst hreqs
          simp only [hgl] at hreq
          rcases res with e | loc
          · simp at hreq
            rw [hreq]
          · split_ifs at hreq <;> simp at hreq <;> rcases hreq with rfl | rfl <;> rfl

/-- C10: today() returns the first forecast of the period sequence when
it is non-empty, and raises IndexError on an empty periods list — there
is no guarded or optional result. -/
theorem today_requires_nonempty_periods (fb : ForecastBody) (ma : PyVal)
    (now : ℚ) :
    (fb.periods = [] →
      (WeeklyForecast.ofJson fb ma now).today = .error .indexError) ∧
    (∀ (p : PeriodJson) (rest : List PeriodJson), fb.periods = p :: rest →
      (WeeklyForecast.ofJson fb ma now).today = .ok (Forecast.ofJson p)) := by
  constructor
  · intro h
    simp [WeeklyForecast.today, WeeklyForecast.ofJson, pyListGet, h]
  · intro p rest h
    simp [WeeklyForecast.today, WeeklyForecast.ofJson, pyListGet, h]
